import Mathlib

/-
  Verification of the allied_vision_server command-dispatch and
  capture-session engine against its natural-language specification.

  The definitions below are a shallow embedding of the C++ sources:
    - src/include/imagecam.hpp   (ImageCam, CameraInfo, capture state machine)
    - src/server.hpp             (command codes, NetPacket, request loop main())
    - src/src/stringhasher.cpp   (StringHasher::get_hash)
  Vendor SDK calls (Vimba / aDIO) are out of scope per the spec and are
  modelled by an oracle supplying each call's result.
-/

namespace AlliedServer

/-- Result codes of the Vmb SDK used by the server. The server only ever
compares codes for identity, so they are modelled as an inductive type;
`Other` stands for any further vendor-returned code. -/
inductive VmbError where
  | Success
  | NotFound
  | NoData
  | WrongType
  | BadParameter
  | Other (code : Int)
deriving DecidableEq, Repr

/-- Camera descriptor fields, from class CameraInfo in imagecam.hpp. -/
structure CameraInfo where
  idstr : String
  name : String
  model : String
  serial : String
deriving DecidableEq, Repr

/-- Embedding of std::to_string(const CameraInfo &) from imagecam.hpp. -/
def CameraInfo.to_string (info : CameraInfo) : String :=
  "ID: " ++ info.idstr ++ ",\n" ++
  "Name: " ++ info.name ++ ",\n" ++
  "Model: " ++ info.model ++ ",\n" ++
  "Serial: " ++ info.serial ++ ",\n"

/-- State of one ImageCam object (imagecam.hpp). `handleOpen` models
`handle != nullptr`, `adioPresent` models `adio_hdl != nullptr`, and
`capture_start_time = -1` means the start timestamp is unset. -/
structure ImageCam where
  handleOpen : Bool
  capturing : Bool
  adioPresent : Bool
  state : Nat
  info : CameraInfo
  capture_start_time : Int
  frames : Nat
  adio_bit : Int
deriving DecidableEq, Repr

/-- ImageCam::running. -/
def ImageCam.running (cam : ImageCam) : Bool :=
  cam.capturing

/-- ImageCam::capture_time(int64_t tnow). -/
def ImageCam.capture_time (cam : ImageCam) (tnow : Int) : Int :=
  if cam.capture_start_time < 0 then -1 else tnow - cam.capture_start_time

/-- ImageCam::start_capture. `vendorErr` is the result of the
allied_start_capture vendor call (performed only when the handle is open
and the camera is not already capturing); `tnow` is the zclock_mono value
observed at the call. -/
def ImageCam.start_capture (cam : ImageCam) (vendorErr : VmbError) (tnow : Int) :
    ImageCam × VmbError :=
  let cam := { cam with frames := 0 }
  let err := if cam.handleOpen && !cam.capturing then vendorErr else VmbError.Success
  if err = VmbError.Success then
    ({ cam with capture_start_time := tnow, capturing := true }, err)
  else
    ({ cam with capture_start_time := -1 }, err)

/-- Observable outcome of ImageCam::stop_capture: the updated camera, the
returned code, whether allied_stop_capture was called, and whether a
WriteBit_aDIO low write was performed. -/
structure StopResult where
  cam : ImageCam
  err : VmbError
  vendorStopCalled : Bool
  dioWritten : Bool
deriving DecidableEq, Repr

/-- ImageCam::stop_capture. `vendorErr` is the result of the
allied_stop_capture vendor call. -/
def ImageCam.stop_capture (cam : ImageCam) (vendorErr : VmbError) : StopResult :=
  if cam.handleOpen && cam.capturing then
    let dio := cam.adioPresent && decide (0 ≤ cam.adio_bit)
    let cam1 := if dio then { cam with state := 0 } else cam
    { cam := { cam1 with capturing := false, capture_start_time := -1 },
      err := vendorErr, vendorStopCalled := true, dioWritten := dio }
  else
    { cam := { cam with capturing := false, capture_start_time := -1 },
      err := VmbError.Success, vendorStopCalled := false, dioWritten := false }

/-- ImageCam::Callback: a frame arrival increments the frame counter and,
when a digital-output bit is assigned, inverts the remembered output level
(`state` is an unsigned char, so complement is 255 - state). -/
def ImageCam.frameCallback (cam : ImageCam) : ImageCam :=
  let cam := { cam with frames := cam.frames + 1 }
  if cam.adioPresent && decide (0 ≤ cam.adio_bit) then
    { cam with state := 255 - cam.state % 256 }
  else cam

/- Numeric command codes from enum CommandNames in server.hpp. -/
namespace CommandNames

def image_format : Int := 100

def sensor_bit_depth : Int := 101

def trigline : Int := 102

def trigline_src : Int := 103

def exposure_us : Int := 104

def acq_framerate : Int := 105

def acq_framerate_auto : Int := 106

def frame_size : Int := 107

def image_size : Int := 200

def image_ofst : Int := 201

def sensor_size : Int := 202

def throughput_limit : Int := 300

def throughput_limit_range : Int := 301

def camera_info : Int := 302

def adio_bit : Int := 10

def capture_maxlen : Int := 400

end CommandNames

/-- Wire envelope, class NetPacket in server.hpp. `retcode` is kept as a
VmbError rather than its integer encoding. -/
structure NetPacket where
  cmd_type : String
  cam_id : String
  command : Int
  arguments : List String
  retcode : VmbError
  retargs : List String
deriving DecidableEq, Repr

/-- Mutable state of main(): the ordered identity list `camids`, the
identity-to-handle registry `imagecams` (entries in std::map iteration
order, keys unique), the process-wide capture-time ceiling, and the
zsys_interrupted flag. -/
structure ServerState where
  camids : List Nat
  imagecams : List (Nat × ImageCam)
  capture_timelim : Int
  interrupted : Bool
deriving DecidableEq, Repr

/-- Character predicate of C isspace, used by atol. -/
def isSpaceChar (c : Char) : Bool :=
  c = ' ' || c = '\t' || c = '\n' || c = '\x0b' || c = '\x0c' || c = '\r'

/-- Accumulate leading decimal digits, stopping at the first non-digit. -/
def digitsVal : List Char → Int → Int
  | c :: rest, acc =>
    if c.isDigit then digitsVal rest (acc * 10 + Int.ofNat (c.toNat - 48)) else acc
  | [], acc => acc

/-- C atol: skip leading whitespace, optional sign, leading digits. -/
def atol (s : String) : Int :=
  match s.data.dropWhile isSpaceChar with
  | '-' :: rest => - digitsVal rest 0
  | '+' :: rest => digitsVal rest 0
  | cs => digitsVal cs 0

/-- Conversion of a C long to uint32_t, as in
`uint32_t chash = atol(packet.cam_id.c_str())`. -/
def toU32 (i : Int) : Nat :=
  (i % 4294967296).toNat

/-- std::map::at on the registry: first entry with the given key, none when
the key is absent (the C++ code catches the thrown std::out_of_range). -/
def lookupCam : List (Nat × ImageCam) → Nat → Option ImageCam
  | [], _ => none
  | (k, c) :: rest, h => if k = h then some c else lookupCam rest h

/-- Write back a camera object under its key (the C++ code mutates the
mapped ImageCam in place through a pointer). -/
def updateCam : List (Nat × ImageCam) → Nat → ImageCam → List (Nat × ImageCam)
  | [], _, _ => []
  | (k, c0) :: rest, h, c =>
    if k = h then (k, c) :: rest else (k, c0) :: updateCam rest h c

/-- Oracle for the out-of-scope vendor SDK and digital-I/O calls: each
field supplies the result of one kind of call. `genericGet`/`genericSet`
cover the macro-generated single-value parameter cases (the reply strings
they push and the final err value), `pairSet`/`pairGet` the two-integer
image_size / image_ofst / sensor_size / throughput_limit_range calls,
`frameSize` the allied_get_frame_size value, `startErr`/`stopErr` the
per-camera allied_start_capture / allied_stop_capture results, and
`tempOf` the temperature source and reading used by status. -/
structure VendorOracle where
  genericGet : Int → VmbError × List String
  genericSet : Int → String → VmbError × List String
  pairSet : Int → Int → Int → VmbError
  pairGet : Int → VmbError × Int × Int
  frameSize : Nat
  startErr : Nat → VmbError
  stopErr : Nat → VmbError
  tempOf : Nat → String × String

/-- Command codes handled by the macro-generated single-value get cases
(GET_CASE_STR / GET_CASE_DBL / GET_CASE_BOOL / GET_CASE_INT). The switch
also names a few further vendor-backed codes (trigline_mode and the
GET_CASE_LIST commands) whose numeric values are not declared in the
provided headers; they would belong to this same vendor-backed bucket and
play no role in any property proved below, since the no-data check and the
registry lookup run before the switch and the special cases have their own
codes. -/
def genericGetCodes : List Int :=
  [CommandNames.image_format, CommandNames.sensor_bit_depth,
   CommandNames.trigline, CommandNames.trigline_src,
   CommandNames.exposure_us, CommandNames.acq_framerate,
   CommandNames.acq_framerate_auto, CommandNames.throughput_limit]

/-- Command codes handled by the two-integer get cases. -/
def pairGetCodes : List Int :=
  [CommandNames.image_size, CommandNames.image_ofst,
   CommandNames.sensor_size, CommandNames.throughput_limit_range]

/-- Command codes handled by the macro-generated single-value set cases. -/
def genericSetCodes : List Int :=
  [CommandNames.image_format, CommandNames.sensor_bit_depth,
   CommandNames.trigline, CommandNames.trigline_src,
   CommandNames.exposure_us, CommandNames.acq_framerate,
   CommandNames.acq_framerate_auto, CommandNames.throughput_limit]

/-- The get switch of main() (server.hpp). NOTE: in the C++ source the
`case CommandNames::camera_info` block has no `break` statement, so
execution falls through into the `capture_maxlen` case and a second
return value (the ceiling) is pushed after the identity block. -/
def getSwitch (o : VendorOracle) (tl : Int) (cam : ImageCam) (command : Int) :
    VmbError × List String :=
  if command = CommandNames.camera_info then
    (VmbError.Success, [CameraInfo.to_string cam.info, toString tl])
  else if command = CommandNames.capture_maxlen then
    (VmbError.Success, [toString tl])
  else if command = CommandNames.adio_bit then
    (VmbError.Success, [toString cam.adio_bit])
  else if command = CommandNames.frame_size then
    (VmbError.Success, [toString o.frameSize])
  else if command ∈ genericGetCodes then
    o.genericGet command
  else if command ∈ pairGetCodes then
    ((o.pairGet command).1,
     [toString (o.pairGet command).2.1, toString (o.pairGet command).2.2])
  else
    (VmbError.WrongType, [])

/-- Outcome of one set-switch dispatch: the (possibly updated) camera, the
(possibly updated) process-wide ceiling, the result code and the pushed
reply values. -/
structure SetOutcome where
  cam : ImageCam
  timelim : Int
  err : VmbError
  reply : List String
deriving DecidableEq, Repr

/-- The set switch of main() (server.hpp); runs only after the no-data
check and the registry lookup both passed, so `args` is non-empty here. -/
def setSwitch (o : VendorOracle) (tl : Int) (cam : ImageCam) (command : Int)
    (args : List String) : SetOutcome :=
  let argument := args.headD ""
  if command = CommandNames.capture_maxlen then
    let arg1l := atol argument
    let arg1l := if arg1l < 1000 then 1000 else arg1l
    { cam := cam, timelim := arg1l, err := VmbError.Success,
      reply := [toString arg1l] }
  else if command = CommandNames.adio_bit then
    let arg1l := atol argument
    { cam := { cam with adio_bit := arg1l }, timelim := tl,
      err := VmbError.Success, reply := [toString arg1l] }
  else if command = CommandNames.image_size ∨ command = CommandNames.image_ofst then
    if args.length ≠ 2 then
      { cam := cam, timelim := tl, err := VmbError.WrongType, reply := [] }
    else
      let e1 := o.pairSet command (atol (args.headD "")) (atol (args.getD 1 ""))
      if e1 ≠ VmbError.Success then
        { cam := cam, timelim := tl, err := e1, reply := [] }
      else
        { cam := cam, timelim := tl, err := (o.pairGet command).1,
          reply := [toString (o.pairGet command).2.1,
                    toString (o.pairGet command).2.2] }
  else if command ∈ genericSetCodes then
    let (e, rep) := o.genericSet command argument
    { cam := cam, timelim := tl, err := e, reply := rep }
  else
    { cam := cam, timelim := tl, err := VmbError.WrongType, reply := [] }

/-- The get verb handler: registry lookup (out_of_range maps to NotFound
with the cleared return arguments), then the get switch. -/
def handleGet (o : VendorOracle) (st : ServerState) (chash : Nat) (command : Int) :
    VmbError × List String :=
  match lookupCam st.imagecams chash with
  | none => (VmbError.NotFound, [])
  | some cam => getSwitch o st.capture_timelim cam command

/-- The set verb handler: the `packet.arguments.size() < 1` no-data check
runs before the registry lookup; a lookup miss maps to NotFound. -/
def handleSet (o : VendorOracle) (st : ServerState) (chash : Nat) (command : Int)
    (args : List String) : ServerState × VmbError × List String :=
  if args.length < 1 then
    (st, VmbError.NoData, [])
  else
    match lookupCam st.imagecams chash with
    | none => (st, VmbError.NotFound, [])
    | some cam =>
      let out := setSwitch o st.capture_timelim cam command args
      ({ st with imagecams := updateCam st.imagecams chash out.cam,
                 capture_timelim := out.timelim },
       out.err, out.reply)

/-- The status verb: per-camera or all-camera temperature report; the
temperature-call return values are discarded by the C++ code, so only a
registry miss can change the result code. -/
def statusReply (o : VendorOracle) (st : ServerState) (cam_id : String) (chash : Nat) :
    VmbError × List String :=
  if cam_id ≠ "" then
    match lookupCam st.imagecams chash with
    | none => (VmbError.NotFound, [])
    | some cam =>
      (VmbError.Success,
       [if cam.running then "True" else "False",
        (o.tempOf chash).1, (o.tempOf chash).2])
  else
    (VmbError.Success,
     st.imagecams.foldr (fun q acc =>
       toString q.1 :: q.2.info.idstr ::
         (if q.2.running then "True" else "False") ::
         (o.tempOf q.1).1 :: (o.tempOf q.1).2 :: acc) [])

/-- The start_capture_all / stop_capture_all iteration: run `step` over the
registry in order, stopping at the first camera whose call does not return
Success; `err` starts at Success and always holds the last call's code. -/
def runAll (step : Nat → ImageCam → ImageCam × VmbError) :
    List (Nat × ImageCam) → List (Nat × ImageCam) × VmbError
  | [] => ([], VmbError.Success)
  | (k, cam) :: rest =>
    if (step k cam).2 = VmbError.Success then
      ((k, (step k cam).1) :: (runAll step rest).1, (runAll step rest).2)
    else
      ((k, (step k cam).1) :: rest, (step k cam).2)

/-- Per-camera step of the broadcast start. -/
def startStep (o : VendorOracle) (tnow : Int) (k : Nat) (cam : ImageCam) :
    ImageCam × VmbError :=
  cam.start_capture (o.startErr k) tnow

/-- Per-camera step of the broadcast stop. -/
def stopStep (o : VendorOracle) (k : Nat) (cam : ImageCam) : ImageCam × VmbError :=
  let r := cam.stop_capture (o.stopErr k)
  (r.cam, r.err)

/-- Verb dispatch of main(): decode of one request into the state update
and the reply packet (return arguments cleared, then result code and
return values filled in; cmd_type, cam_id, command and arguments echoed). -/
def processPacket (o : VendorOracle) (tnow : Int) (st : ServerState) (p : NetPacket) :
    ServerState × NetPacket :=
  let p := { p with retargs := [] }
  let chash := toU32 (atol p.cam_id)
  if p.cmd_type = "quit" then
    ({ st with interrupted := true }, { p with retcode := VmbError.Success })
  else if p.cmd_type = "status" then
    (st, { p with retcode := (statusReply o st p.cam_id chash).1,
                  retargs := (statusReply o st p.cam_id chash).2 })
  else if p.cmd_type = "list" then
    (st, { p with retcode := VmbError.Success,
                  retargs := st.camids.map (fun h => toString h) })
  else if p.cmd_type = "start_capture_all" then
    ({ st with imagecams := (runAll (startStep o tnow) st.imagecams).1 },
     { p with retcode := (runAll (startStep o tnow) st.imagecams).2 })
  else if p.cmd_type = "stop_capture_all" then
    ({ st with imagecams := (runAll (stopStep o) st.imagecams).1 },
     { p with retcode := (runAll (stopStep o) st.imagecams).2 })
  else if p.cmd_type = "start_capture" then
    match lookupCam st.imagecams chash with
    | none => (st, { p with retcode := VmbError.NotFound })
    | some cam =>
      ({ st with imagecams :=
           updateCam st.imagecams chash (cam.start_capture (o.startErr chash) tnow).1 },
       { p with retcode := (cam.start_capture (o.startErr chash) tnow).2 })
  else if p.cmd_type = "stop_capture" then
    match lookupCam st.imagecams chash with
    | none => (st, { p with retcode := VmbError.NotFound })
    | some cam =>
      ({ st with imagecams :=
           updateCam st.imagecams chash (cam.stop_capture (o.stopErr chash)).cam },
       { p with retcode := (cam.stop_capture (o.stopErr chash)).err })
  else if p.cmd_type = "get" then
    (st, { p with retcode := (handleGet o st chash p.command).1,
                  retargs := (handleGet o st chash p.command).2 })
  else if p.cmd_type = "set" then
    ((handleSet o st chash p.command p.arguments).1,
     { p with retcode := (handleSet o st chash p.command p.arguments).2.1,
              retargs := (handleSet o st chash p.command p.arguments).2.2 })
  else
    (st, { p with retcode := VmbError.BadParameter })

/-- Ceiling check applied to one camera on a polling wake: a camera that is
running and whose elapsed capture time strictly exceeds the ceiling is
stopped (return code of the stop discarded); every other camera is left
untouched. -/
def tickCam (o : VendorOracle) (tl : Int) (tnow : Int) (k : Nat) (cam : ImageCam) :
    ImageCam :=
  if cam.running then
    if cam.capture_time tnow > tl then (cam.stop_capture (o.stopErr k)).cam
    else cam
  else cam

/-- The per-wake ceiling sweep over every registered camera. -/
def ceilingCheck (o : VendorOracle) (tnow : Int) (st : ServerState) : ServerState :=
  { st with imagecams :=
      st.imagecams.map (fun q => (q.1, tickCam o st.capture_timelim tnow q.1 q.2)) }

/-- One wake of the request loop: either the one-second poll timeout or an
incoming message. -/
inductive Wake where
  | timeout
  | message (p : NetPacket)
deriving DecidableEq, Repr

/-- One iteration of the request loop body: the ceiling sweep runs first on
every wake; a message wake then dispatches the packet and produces exactly
one reply. -/
def loopIter (o : VendorOracle) (tnow : Int) (w : Wake) (st : ServerState) :
    ServerState × Option NetPacket :=
  let st := ceilingCheck o tnow st
  match w with
  | Wake.timeout => (st, none)
  | Wake.message p =>
    ((processPacket o tnow st p).1, some (processPacket o tnow st p).2)

/-- The request loop over a schedule of wakes, re-checking the interrupted
flag at the top of each iteration. -/
def loopRun (o : VendorOracle) : List (Int × Wake) → ServerState → ServerState
  | [], st => st
  | (tnow, w) :: rest, st =>
    if st.interrupted then st
    else loopRun o rest (loopIter o tnow w st).1

/-- Server state at entry of the request loop: registry built from the
enumeration, `capture_timelim` initialized to 5000 ms. -/
def initState (camids : List Nat) (cams : List (Nat × ImageCam)) : ServerState :=
  { camids := camids, imagecams := cams, capture_timelim := 5000,
    interrupted := false }

/-- Loop body of StringHasher::get_hash (stringhasher.cpp): on uint32_t,
`h = ((h >> 11) | (h << (32 - 11))) + state[(uint8_t)(ch ^ h)]`, with the
shift-left and the addition wrapping modulo 2^32. `table` is the 256-entry
substitution table `state` filled once at construction. -/
def get_hash_step (table : Nat → Nat) (h ch : Nat) : Nat :=
  (((h >>> 11) ||| ((h <<< 21) % 4294967296)) + table ((ch ^^^ h) % 256)) % 4294967296

/-- StringHasher::get_hash: fold the loop body over the characters from the
fixed initial constant, then whiten with two XOR-folds. -/
def get_hash (table : Nat → Nat) (s : List Nat) : Nat :=
  let h := s.foldl (get_hash_step table) 0x1F351F35
  let h := h ^^^ (h >>> 16)
  h ^^^ (h >>> 8)

/-- Right rotation of a 32-bit value by 11 bits, written arithmetically:
the low 11 bits move to the top. Part of the reference definition taken
from the specification's words. -/
def rotateRight32_11 (h : Nat) : Nat :=
  h % 4294967296 / 2 ^ 11 + h % 2 ^ 11 * 2 ^ 21

/-- Reference per-character step, following the specification's words: the
accumulator is rotated right by 11 bits and the substitution-table byte
indexed by (character XOR low byte of accumulator) is added. -/
def hashRefStep (table : Nat → Nat) (h ch : Nat) : Nat :=
  (rotateRight32_11 h + table (ch % 256 ^^^ h % 256)) % 4294967296

/-- Reference hash, following the specification's words: start from the
fixed initial constant 0x1F351F35, apply the reference step per character,
then XOR-fold twice. -/
def hashRef (table : Nat → Nat) (s : List Nat) : Nat :=
  let h := s.foldl (hashRefStep table) 0x1F351F35
  let h := h ^^^ (h >>> 16)
  h ^^^ (h >>> 8)

/- Concrete fixtures used by witnesses and counterexamples. -/

/-- Descriptor of the sample camera "A". -/
def sampleInfo : CameraInfo :=
  { idstr := "A", name := "CamA", model := "M0", serial := "S1" }

/-- A freshly opened, idle sample camera. -/
def sampleCam : ImageCam :=
  { handleOpen := true, capturing := false, adioPresent := false, state := 0,
    info := sampleInfo, capture_start_time := -1, frames := 0, adio_bit := -1 }

/-- A sample camera that is capturing since t = 0. -/
def capturingCam : ImageCam :=
  { handleOpen := true, capturing := true, adioPresent := false, state := 0,
    info := sampleInfo, capture_start_time := 0, frames := 5, adio_bit := -1 }

/-- A vendor oracle whose every call succeeds. -/
def okOracle : VendorOracle :=
  { genericGet := fun _ => (VmbError.Success, ["v"]),
    genericSet := fun _ _ => (VmbError.Success, ["v"]),
    pairSet := fun _ _ _ => VmbError.Success,
    pairGet := fun _ => (VmbError.Success, 0, 0),
    frameSize := 0,
    startErr := fun _ => VmbError.Success,
    stopErr := fun _ => VmbError.Success,
    tempOf := fun _ => ("Mainboard", "30.0") }

/-- A vendor oracle whose start/stop calls fail on camera hash 2. -/
def failAt2Oracle : VendorOracle :=
  { okOracle with
    startErr := fun k => if k = 2 then VmbError.Other (-1) else VmbError.Success,
    stopErr := fun k => if k = 2 then VmbError.Other (-1) else VmbError.Success }

/-- A server state holding the sample camera under identity 1, with the
default ceiling. -/
def st0 : ServerState :=
  initState [1] [(1, sampleCam)]

/- Helper lemmas. -/

/-- Bitwise or of a value below 2^21 with a multiple of 2^21 is their sum. -/
theorem lor_disjoint21 (a b : Nat) (ha : a < 2 ^ 21) :
    a ||| (2 ^ 21 * b) = 2 ^ 21 * b + a := by
  apply Nat.eq_of_testBit_eq
  intro j
  rw [Nat.testBit_lor, Nat.testBit_mul_pow_two_add b ha j]
  have h0 : (2 ^ 21 * b).testBit j = if j < 21 then false else b.testBit (j - 21) := by
    have := Nat.testBit_mul_pow_two_add b (show 0 < 2 ^ 21 by positivity) j
    simpa using this
  rw [h0]
  rcases Nat.lt_or_ge j 21 with h | h
  · simp [h]
  · have : a.testBit j = false := by
      apply Nat.testBit_lt_two_pow
      exact lt_of_lt_of_le ha (Nat.pow_le_pow_right (by norm_num) h)
    simp [this, Nat.not_lt.mpr h]

/-- The or-of-shifts expression of the C rotate equals the arithmetic
32-bit right rotation by 11. -/
theorem rotr_or_eq (h : Nat) (hh : h < 4294967296) :
    ((h >>> 11) ||| ((h <<< 21) % 4294967296)) = h / 2 ^ 11 + h % 2 ^ 11 * 2 ^ 21 := by
  have e1 : (h <<< 21) % 4294967296 = 2 ^ 21 * (h % 2 ^ 11) := by
    rw [Nat.shiftLeft_eq]
    have e : (4294967296 : Nat) = 2 ^ 11 * 2 ^ 21 := by norm_num
    rw [e, Nat.mul_mod_mul_right, Nat.mul_comm]
  have e2 : h >>> 11 = h / 2 ^ 11 := Nat.shiftRight_eq_div_pow h 11
  have hlt : h / 2 ^ 11 < 2 ^ 21 := by
    apply Nat.div_lt_of_lt_mul
    calc h < 4294967296 := hh
    _ = 2 ^ 11 * 2 ^ 21 := by norm_num
  rw [e1, e2, lor_disjoint21 _ _ hlt]
  ring

/-- Truncating an xor to the low byte equals xoring the low bytes. -/
theorem xor_mod256 (a b : Nat) : (a ^^^ b) % 256 = a % 256 ^^^ b % 256 := by
  apply Nat.eq_of_testBit_eq
  intro i
  have h256 : (256 : Nat) = 2 ^ 8 := by norm_num
  rw [h256, Nat.testBit_mod_two_pow, Nat.testBit_xor, Nat.testBit_xor,
    Nat.testBit_mod_two_pow, Nat.testBit_mod_two_pow]
  rcases Nat.lt_or_ge i 8 with h | h
  · simp [h]
  · simp [Nat.not_lt.mpr h]

/-- The source loop body agrees with the reference step on 32-bit inputs. -/
theorem get_hash_step_eq (table : Nat → Nat) (h ch : Nat) (hh : h < 4294967296) :
    get_hash_step table h ch = hashRefStep table h ch := by
  unfold get_hash_step hashRefStep rotateRight32_11
  rw [rotr_or_eq h hh, xor_mod256, Nat.mod_eq_of_lt hh]

/-- The reference step stays below 2^32. -/
theorem hashRefStep_lt (table : Nat → Nat) (h ch : Nat) :
    hashRefStep table h ch < 4294967296 := by
  unfold hashRefStep
  exact Nat.mod_lt _ (by norm_num)

/-- Folding the source loop body equals folding the reference step, for any
32-bit starting accumulator. -/
theorem get_hash_fold_eq (table : Nat → Nat) (s : List Nat) :
    ∀ h : Nat, h < 4294967296 →
      s.foldl (get_hash_step table) h = s.foldl (hashRefStep table) h := by
  induction s with
  | nil => intro h _; rfl
  | cons ch rest ih =>
    intro h hh
    simp only [List.foldl_cons]
    rw [get_hash_step_eq table h ch hh]
    exact ih _ (hashRefStep_lt table h ch)

/- Claim theorems. -/

/-- C9: for every substitution table and every input string, the identity
hash of StringHasher::get_hash equals the reference definition (initial
constant 0x1F351F35, per-character rotate-right-by-11 and add of the
substitution-table byte indexed by the character XOR the accumulator's low
byte, then two final XOR-folds), and — the table being fixed for the
process run — equal input strings always yield equal identities. -/
theorem get_hash_matches_reference (table : Nat → Nat) (s : List Nat) :
    get_hash table s = hashRef table s ∧
    ∀ s2 : List Nat, s = s2 → get_hash table s = get_hash table s2 := by
  constructor
  · unfold get_hash hashRef
    rw [get_hash_fold_eq table s 0x1F351F35 (by norm_num)]
  · intro s2 hs
    rw [hs]

/-- Witness for C9 at a concrete table and string. -/
theorem get_hash_matches_reference_witness :
    (([72, 105] : List Nat) = [72, 105] ∧
      get_hash (fun i => i) [72, 105] = get_hash (fun i => i) [72, 105]) ∧
    get_hash (fun i => i) [72, 105] = hashRef (fun i => i) [72, 105] :=
  ⟨⟨rfl, (get_hash_matches_reference (fun i => i) [72, 105]).2 [72, 105] rfl⟩,
   (get_hash_matches_reference (fun i => i) [72, 105]).1⟩

/-- C10: stop_capture on a camera that is not capturing returns Success,
performs neither the vendor stop call nor a digital-output write, leaves
the capturing flag false with the start timestamp cleared, and a second
stop_capture yields the identical outcome. -/
theorem stop_capture_idle_idempotent (cam : ImageCam) (e e2 : VmbError)
    (h : cam.capturing = false) :
    cam.stop_capture e =
      { cam := { cam with capturing := false, capture_start_time := -1 },
        err := VmbError.Success, vendorStopCalled := false, dioWritten := false } ∧
    (cam.stop_capture e).cam.stop_capture e2 = cam.stop_capture e := by
  have h1 : cam.stop_capture e =
      { cam := { cam with capturing := false, capture_start_time := -1 },
        err := VmbError.Success, vendorStopCalled := false, dioWritten := false } := by
    unfold ImageCam.stop_capture
    simp [h]
  refine ⟨h1, ?_⟩
  rw [h1]
  unfold ImageCam.stop_capture
  simp

/-- Witness for C10 on the idle sample camera. -/
theorem stop_capture_idle_idempotent_witness :
    sampleCam.capturing = false ∧
    (sampleCam.stop_capture VmbError.Success =
      { cam := { sampleCam with capturing := false, capture_start_time := -1 },
        err := VmbError.Success, vendorStopCalled := false, dioWritten := false } ∧
     (sampleCam.stop_capture VmbError.Success).cam.stop_capture VmbError.Success =
       sampleCam.stop_capture VmbError.Success) :=
  ⟨rfl, stop_capture_idle_idempotent sampleCam VmbError.Success VmbError.Success rfl⟩

/-- Formalization of claim C4 as stated: a start_capture on a handle that
is already Capturing leaves the frame counter and the start timestamp
untouched, and is accepted only when the handle is not already Capturing
(so here it is rejected). -/
def claimC4 : Prop :=
  ∀ (cam : ImageCam) (e : VmbError) (t : Int), cam.capturing = true →
    (cam.start_capture e t).2 ≠ VmbError.Success ∧
    (cam.start_capture e t).1.frames = cam.frames ∧
    (cam.start_capture e t).1.capture_start_time = cam.capture_start_time

/-- Counterexample to C4: on a camera capturing since t = 0 with 5 frames
counted, a second start_capture at t = 200 is accepted with Success and
resets the frame counter to 0 and the start timestamp to 200. -/
theorem start_capture_second_counterexample :
    ¬ claimC4 ∧
    capturingCam.start_capture VmbError.Success 200 =
      ({ capturingCam with frames := 0, capture_start_time := 200 },
       VmbError.Success) := by
  constructor
  · intro hcl
    have h := (hcl capturingCam VmbError.Success 200 rfl).2.1
    exact absurd h (by decide)
  · rfl

/-- C4 amended: a second start_capture on an already-Capturing handle
skips the vendor start call (the vendor result is irrelevant), is accepted
with Success, and unconditionally resets the frame counter to 0 and
re-records the start timestamp as the current time. -/
theorem start_capture_second_amended (cam : ImageCam) (e : VmbError) (t : Int)
    (h : cam.capturing = true) :
    cam.start_capture e t =
      ({ cam with frames := 0, capture_start_time := t }, VmbError.Success) := by
  cases cam with
  | mk handleOpen capturing adioPresent state info cst frames adio_bit =>
    simp only [ImageCam.capturing] at h
    subst h
    simp [ImageCam.start_capture]

/-- Witness for the amended C4 on the capturing sample camera. -/
theorem start_capture_second_amended_witness :
    capturingCam.capturing = true ∧
    capturingCam.start_capture (VmbError.Other (-3)) 200 =
      ({ capturingCam with frames := 0, capture_start_time := 200 },
       VmbError.Success) :=
  ⟨rfl, start_capture_second_amended capturingCam (VmbError.Other (-3)) 200 rfl⟩

/-- C6: a set request with an empty argument list is answered with the
no-data code and no return values, and leaves the server state (registry
and ceiling) unchanged, for every command code and camera identifier. -/
theorem set_empty_args_no_data (o : VendorOracle) (st : ServerState)
    (chash : Nat) (command : Int) :
    handleSet o st chash command [] = (st, VmbError.NoData, []) :=
  rfl

/-- C7 divergence witness: in the C++ get switch the camera_info case has
no break and falls through into the capture_maxlen case, so get
camera_info on the registered sample camera returns TWO values — the
identity block and the ceiling — not exactly one. -/
theorem camera_info_fallthrough :
    (handleGet okOracle st0 1 CommandNames.camera_info).2 =
      [CameraInfo.to_string sampleInfo, "5000"] ∧
    (handleGet okOracle st0 1 CommandNames.camera_info).2.length = 2 := by
  constructor <;> rfl

/-- C1: the ceiling sweep runs first on every wake of the request loop
(timeout wakes included); under it, a camera in the Capturing state whose
elapsed time now - start_timestamp strictly exceeds the ceiling is stopped
— afterwards its capturing flag is false and its start timestamp cleared —
while a Capturing camera whose elapsed time does not exceed the ceiling is
left untouched. -/
theorem ceiling_check_stops_overrunning (o : VendorOracle) (tnow : Int)
    (st : ServerState) :
    loopIter o tnow Wake.timeout st = (ceilingCheck o tnow st, none) ∧
    (∀ p, loopIter o tnow (Wake.message p) st =
      ((processPacket o tnow (ceilingCheck o tnow st) p).1,
       some (processPacket o tnow (ceilingCheck o tnow st) p).2)) ∧
    (ceilingCheck o tnow st).imagecams =
      st.imagecams.map (fun q => (q.1, tickCam o st.capture_timelim tnow q.1 q.2)) ∧
    (∀ (k : Nat) (cam : ImageCam), cam.capturing = true →
      0 ≤ cam.capture_start_time →
      (tnow - cam.capture_start_time > st.capture_timelim →
        tickCam o st.capture_timelim tnow k cam = (cam.stop_capture (o.stopErr k)).cam ∧
        (tickCam o st.capture_timelim tnow k cam).capturing = false ∧
        (tickCam o st.capture_timelim tnow k cam).capture_start_time = -1) ∧
      (¬ tnow - cam.capture_start_time > st.capture_timelim →
        tickCam o st.capture_timelim tnow k cam = cam)) := by
  refine ⟨rfl, fun p => rfl, rfl, ?_⟩
  intro k cam hcap hts
  have hrun : cam.running = true := hcap
  have htime : cam.capture_time tnow = tnow - cam.capture_start_time := by
    unfold ImageCam.capture_time
    rw [if_neg (by omega)]
  constructor
  · intro hover
    have he : tickCam o st.capture_timelim tnow k cam =
        (cam.stop_capture (o.stopErr k)).cam := by
      unfold tickCam
      rw [if_pos hrun, htime, if_pos hover]
    refine ⟨he, ?_, ?_⟩ <;> rw [he] <;>
      unfold ImageCam.stop_capture <;> split <;> simp
  · intro hunder
    unfold tickCam
    rw [if_pos hrun, htime, if_neg hunder]

/-- Witness for C1, matching the spec's example: ceiling 5000 ms, capture
started at t = 0, sweep evaluated at t = 6000 stops the camera. -/
theorem ceiling_check_stops_overrunning_witness :
    (capturingCam.capturing = true ∧ 0 ≤ capturingCam.capture_start_time ∧
      (6000 : Int) - capturingCam.capture_start_time > st0.capture_timelim) ∧
    (tickCam okOracle st0.capture_timelim 6000 1 capturingCam).capturing = false ∧
    (tickCam okOracle st0.capture_timelim 6000 1 capturingCam).capture_start_time = -1 := by
  have h := ((ceiling_check_stops_overrunning okOracle 6000 st0).2.2.2 1
    capturingCam rfl (by decide)).1 (by decide)
  exact ⟨⟨rfl, by decide, by decide⟩, h.2.1, h.2.2⟩

/-- Formalization of claim C5 as stated: when the addressed identifier has
no registered handle, get replies not-found, and set replies not-found for
every argument list. -/
def claimC5 : Prop :=
  ∀ (o : VendorOracle) (st : ServerState) (chash : Nat) (command : Int)
    (args : List String),
    lookupCam st.imagecams chash = none →
    (handleGet o st chash command).1 = VmbError.NotFound ∧
    (handleSet o st chash command args).2.1 = VmbError.NotFound

/-- Counterexample to C5: on an empty registry, a set with an empty
argument list replies no-data, not not-found — the no-data check precedes
the registry lookup. -/
theorem notfound_counterexample :
    ¬ claimC5 ∧
    (handleSet okOracle (initState [] []) 7 CommandNames.image_format []).2.1 =
      VmbError.NoData := by
  constructor
  · intro hcl
    have h := (hcl okOracle (initState [] []) 7 CommandNames.image_format [] rfl).2
    exact absurd h (by decide)
  · rfl

/-- C5 amended: an unregistered identifier makes every get, and every set
with a non-empty argument list, reply not-found with no return values and
no state change; a set with an empty argument list is instead rejected
with no-data before the lookup. -/
theorem notfound_uniform (o : VendorOracle) (st : ServerState) (chash : Nat)
    (command : Int) (a : String) (rest : List String)
    (h : lookupCam st.imagecams chash = none) :
    handleGet o st chash command = (VmbError.NotFound, []) ∧
    handleSet o st chash command (a :: rest) = (st, VmbError.NotFound, []) ∧
    handleSet o st chash command [] = (st, VmbError.NoData, []) := by
  refine ⟨?_, ?_, rfl⟩
  · unfold handleGet
    rw [h]
  · unfold handleSet
    rw [if_neg (by simp)]
    rw [h]

/-- Witness for the amended C5 on an unregistered identifier. -/
theorem notfound_uniform_witness :
    lookupCam st0.imagecams 7 = none ∧
    (handleGet okOracle st0 7 CommandNames.camera_info = (VmbError.NotFound, []) ∧
     handleSet okOracle st0 7 CommandNames.camera_info ("x" :: []) =
       (st0, VmbError.NotFound, []) ∧
     handleSet okOracle st0 7 CommandNames.camera_info [] =
       (st0, VmbError.NoData, [])) :=
  ⟨rfl, notfound_uniform okOracle st0 7 CommandNames.camera_info "x" [] rfl⟩

/-- Writing back the looked-up camera object unchanged leaves the registry
unchanged. -/
theorem updateCam_self (cams : List (Nat × ImageCam)) (h : Nat) (c : ImageCam) :
    lookupCam cams h = some c → updateCam cams h c = cams := by
  induction cams with
  | nil => intro hl; simp [lookupCam] at hl
  | cons q rest ih =>
    intro hl
    obtain ⟨k, c0⟩ := q
    by_cases hk : k = h
    · have : c0 = c := by
        simpa [lookupCam, hk] using hl
      simp [updateCam, hk, this]
    · have hl2 : lookupCam rest h = some c := by
        simpa [lookupCam, hk] using hl
      simp [updateCam, hk, ih hl2]

/-- Formalization of claim C3 as stated: a set of capture_maxlen with a
non-empty argument list stores the (clamped) requested ceiling no matter
which camera identifier is addressed — registered or not. -/
def claimC3 : Prop :=
  ∀ (o : VendorOracle) (st : ServerState) (chash : Nat) (a : String)
    (rest : List String),
    (handleSet o st chash CommandNames.capture_maxlen (a :: rest)).1.capture_timelim =
      (if atol a < 1000 then 1000 else atol a)

/-- Counterexample to C3: a set capture_maxlen 2000 addressed to the
unregistered identifier 7 replies not-found and leaves the ceiling at its
previous value 5000. -/
theorem capture_maxlen_counterexample :
    ¬ claimC3 ∧
    handleSet okOracle st0 7 CommandNames.capture_maxlen ["2000"] =
      (st0, VmbError.NotFound, []) := by
  constructor
  · intro hcl
    have h := hcl okOracle st0 7 "2000" []
    exact absurd h (by decide)
  · rfl

/-- C3 amended: get/set of capture_maxlen touch only the process-wide
ceiling and not the addressed camera's state, and behave identically for
whichever registered camera is addressed; but the registry lookup precedes
dispatch, so a packet addressing an unregistered identifier is answered
not-found and the ceiling is left unchanged. -/
theorem capture_maxlen_process_wide (o : VendorOracle) (st : ServerState)
    (chash : Nat) (a : String) (rest : List String) :
    (∀ cam : ImageCam, lookupCam st.imagecams chash = some cam →
      handleGet o st chash CommandNames.capture_maxlen =
        (VmbError.Success, [toString st.capture_timelim]) ∧
      handleSet o st chash CommandNames.capture_maxlen (a :: rest) =
        ({ st with capture_timelim := if atol a < 1000 then 1000 else atol a },
         VmbError.Success,
         [toString (if atol a < 1000 then (1000 : Int) else atol a)])) ∧
    (lookupCam st.imagecams chash = none →
      handleGet o st chash CommandNames.capture_maxlen = (VmbError.NotFound, []) ∧
      handleSet o st chash CommandNames.capture_maxlen (a :: rest) =
        (st, VmbError.NotFound, [])) := by
  constructor
  · intro cam hl
    constructor
    · unfold handleGet
      rw [hl]
      rfl
    · have hsw : setSwitch o st.capture_timelim cam CommandNames.capture_maxlen
          (a :: rest) =
          { cam := cam,
            timelim := if atol a < 1000 then 1000 else atol a,
            err := VmbError.Success,
            reply := [toString (if atol a < 1000 then (1000 : Int) else atol a)] } := by
        unfold setSwitch
        rw [if_pos rfl]
        rfl
      unfold handleSet
      rw [if_neg (by simp), hl]
      simp only [hsw, updateCam_self st.imagecams chash cam hl]
  · intro hl
    constructor
    · unfold handleGet
      rw [hl]
    · unfold handleSet
      rw [if_neg (by simp), hl]

/-- Witness for the amended C3: the registered identifier 1 and the
unregistered identifier 7 against the sample registry. -/
theorem capture_maxlen_process_wide_witness :
    (lookupCam st0.imagecams 1 = some sampleCam ∧
      handleSet okOracle st0 1 CommandNames.capture_maxlen ["2000"] =
        ({ st0 with capture_timelim := 2000 }, VmbError.Success, ["2000"])) ∧
    (lookupCam st0.imagecams 7 = none ∧
      handleSet okOracle st0 7 CommandNames.capture_maxlen ["2000"] =
        (st0, VmbError.NotFound, [])) := by
  have h1 := ((capture_maxlen_process_wide okOracle st0 1 "2000" []).1
    sampleCam rfl).2
  have h7 := ((capture_maxlen_process_wide okOracle st0 7 "2000" []).2 rfl).2
  refine ⟨⟨rfl, ?_⟩, rfl, h7⟩
  rw [h1]
  rfl

/-- When every per-camera call succeeds, the broadcast iteration visits
every camera and reports Success. -/
theorem runAll_success (step : Nat → ImageCam → ImageCam × VmbError) :
    ∀ cams : List (Nat × ImageCam),
      (∀ k c, (k, c) ∈ cams → (step k c).2 = VmbError.Success) →
      runAll step cams =
        (cams.map (fun q => (q.1, (step q.1 q.2).1)), VmbError.Success) := by
  intro cams
  induction cams with
  | nil => intro _; rfl
  | cons q rest ih =>
    intro hall
    obtain ⟨k, c⟩ := q
    have hk : (step k c).2 = VmbError.Success := hall k c (List.mem_cons_self _ _)
    have hrest : ∀ k2 c2, (k2, c2) ∈ rest → (step k2 c2).2 = VmbError.Success :=
      fun k2 c2 hm => hall k2 c2 (List.mem_cons_of_mem _ hm)
    simp [runAll, hk, ih hrest]

/-- The broadcast iteration stops at the first failing camera: the cameras
before it keep their new state, the failing camera keeps its new state,
the cameras after it are untouched, and the failure's code is reported. -/
theorem runAll_first_failure (step : Nat → ImageCam → ImageCam × VmbError) :
    ∀ (pre : List (Nat × ImageCam)) (k : Nat) (c : ImageCam)
      (post : List (Nat × ImageCam)),
      (∀ k2 c2, (k2, c2) ∈ pre → (step k2 c2).2 = VmbError.Success) →
      (step k c).2 ≠ VmbError.Success →
      runAll step (pre ++ (k, c) :: post) =
        (pre.map (fun q => (q.1, (step q.1 q.2).1)) ++ (k, (step k c).1) :: post,
         (step k c).2) := by
  intro pre
  induction pre with
  | nil =>
    intro k c post _ hfail
    simp [runAll, hfail]
  | cons q pre2 ih =>
    intro k c post hall hfail
    obtain ⟨k0, c0⟩ := q
    have hk0 : (step k0 c0).2 = VmbError.Success := hall k0 c0 (List.mem_cons_self _ _)
    have hpre2 : ∀ k2 c2, (k2, c2) ∈ pre2 → (step k2 c2).2 = VmbError.Success :=
      fun k2 c2 hm => hall k2 c2 (List.mem_cons_of_mem _ hm)
    simp [runAll, hk0, ih k c post hpre2 hfail]

/-- C8: for start_capture_all and stop_capture_all the registry is
iterated in order and the iteration stops at the first camera whose vendor
call fails: that failure's code is the reply's result code, cameras
processed before the failure keep their new state and later cameras are
untouched; when every call succeeds the result code is Success. -/
theorem capture_all_first_failure :
    (∀ (step : Nat → ImageCam → ImageCam × VmbError) (cams : List (Nat × ImageCam)),
      (∀ k c, (k, c) ∈ cams → (step k c).2 = VmbError.Success) →
      runAll step cams =
        (cams.map (fun q => (q.1, (step q.1 q.2).1)), VmbError.Success)) ∧
    (∀ (step : Nat → ImageCam → ImageCam × VmbError)
       (pre : List (Nat × ImageCam)) (k : Nat) (c : ImageCam)
       (post : List (Nat × ImageCam)),
      (∀ k2 c2, (k2, c2) ∈ pre → (step k2 c2).2 = VmbError.Success) →
      (step k c).2 ≠ VmbError.Success →
      runAll step (pre ++ (k, c) :: post) =
        (pre.map (fun q => (q.1, (step q.1 q.2).1)) ++ (k, (step k c).1) :: post,
         (step k c).2)) ∧
    (∀ (o : VendorOracle) (tnow : Int) (st : ServerState) (p : NetPacket),
      p.cmd_type = "start_capture_all" →
      processPacket o tnow st p =
        ({ st with imagecams := (runAll (startStep o tnow) st.imagecams).1 },
         { p with retargs := [],
                  retcode := (runAll (startStep o tnow) st.imagecams).2 })) ∧
    (∀ (o : VendorOracle) (tnow : Int) (st : ServerState) (p : NetPacket),
      p.cmd_type = "stop_capture_all" →
      processPacket o tnow st p =
        ({ st with imagecams := (runAll (stopStep o) st.imagecams).1 },
         { p with retargs := [],
                  retcode := (runAll (stopStep o) st.imagecams).2 })) := by
  refine ⟨runAll_success, runAll_first_failure, ?_, ?_⟩
  · intro o tnow st p h
    obtain ⟨ct, cid, cmd, args, rc, ra⟩ := p
    simp only [NetPacket.cmd_type] at h
    subst h
    rfl
  · intro o tnow st p h
    obtain ⟨ct, cid, cmd, args, rc, ra⟩ := p
    simp only [NetPacket.cmd_type] at h
    subst h
    rfl

/-- Witness for C8: with a vendor that fails on camera 2, the iteration
over cameras 1 and 2 starts camera 1, stops at camera 2 and reports its
failure code; clause 3 is also applied at a concrete packet. -/
theorem capture_all_first_failure_witness :
    ((∀ k2 c2, (k2, c2) ∈ [(1, sampleCam)] →
        (startStep failAt2Oracle 100 k2 c2).2 = VmbError.Success) ∧
      (startStep failAt2Oracle 100 2 sampleCam).2 ≠ VmbError.Success ∧
      ({ cmd_type := "start_capture_all", cam_id := "", command := 0,
         arguments := [], retcode := VmbError.Success,
         retargs := [] } : NetPacket).cmd_type = "start_capture_all") ∧
    runAll (startStep failAt2Oracle 100) ([(1, sampleCam)] ++ (2, sampleCam) :: []) =
      ([(1, sampleCam)].map
        (fun q => (q.1, (startStep failAt2Oracle 100 q.1 q.2).1)) ++
        (2, (startStep failAt2Oracle 100 2 sampleCam).1) :: [],
       (startStep failAt2Oracle 100 2 sampleCam).2) ∧
    processPacket failAt2Oracle 100 st0
      { cmd_type := "start_capture_all", cam_id := "", command := 0,
        arguments := [], retcode := VmbError.Success, retargs := [] } =
      ({ st0 with imagecams := (runAll (startStep failAt2Oracle 100) st0.imagecams).1 },
       { cmd_type := "start_capture_all", cam_id := "", command := 0,
         arguments := [], retargs := [],
         retcode := (runAll (startStep failAt2Oracle 100) st0.imagecams).2 }) := by
  have hpre : ∀ k2 c2, (k2, c2) ∈ [(1, sampleCam)] →
      (startStep failAt2Oracle 100 k2 c2).2 = VmbError.Success := by
    intro k2 c2 hm
    simp only [List.mem_singleton, Prod.mk.injEq] at hm
    obtain ⟨h1, h2⟩ := hm
    subst h1
    subst h2
    decide
  have hfail : (startStep failAt2Oracle 100 2 sampleCam).2 ≠ VmbError.Success := by
    decide
  refine ⟨⟨hpre, hfail, rfl⟩, ?_, ?_⟩
  · exact capture_all_first_failure.2.1 (startStep failAt2Oracle 100)
      [(1, sampleCam)] 2 sampleCam [] hpre hfail
  · exact capture_all_first_failure.2.2.1 failAt2Oracle 100 st0 _ rfl

/-- No set-switch case other than capture_maxlen writes the ceiling. -/
theorem setSwitch_timelim_of_ne (o : VendorOracle) (tl : Int) (cam : ImageCam)
    (command : Int) (args : List String)
    (h : command ≠ CommandNames.capture_maxlen) :
    (setSwitch o tl cam command args).timelim = tl := by
  simp only [setSwitch]
  rw [if_neg h]
  repeat' split
  all_goals rfl

/-- The capture_maxlen set case: clamp the requested ceiling at 1000 from
below, store it and return the stored value; the camera is untouched. -/
theorem setSwitch_maxlen (o : VendorOracle) (tl : Int) (cam : ImageCam)
    (args : List String) :
    setSwitch o tl cam CommandNames.capture_maxlen args =
      { cam := cam,
        timelim := if atol (args.headD "") < 1000 then 1000
                   else atol (args.headD ""),
        err := VmbError.Success,
        reply := [toString (if atol (args.headD "") < 1000 then (1000 : Int)
                            else atol (args.headD ""))] } := by
  unfold setSwitch
  rw [if_pos rfl]

/-- The set switch keeps the ceiling at or above 1000 ms. -/
theorem setSwitch_timelim_ge (o : VendorOracle) (tl : Int) (cam : ImageCam)
    (command : Int) (args : List String) (h : 1000 ≤ tl) :
    1000 ≤ (setSwitch o tl cam command args).timelim := by
  by_cases hc : command = CommandNames.capture_maxlen
  · subst hc
    rw [setSwitch_maxlen]
    simp only [SetOutcome.timelim]
    split <;> omega
  · rw [setSwitch_timelim_of_ne o tl cam command args hc]
    exact h

/-- The set verb handler keeps the ceiling at or above 1000 ms. -/
theorem handleSet_timelim_ge (o : VendorOracle) (st : ServerState) (chash : Nat)
    (command : Int) (args : List String) (h : 1000 ≤ st.capture_timelim) :
    1000 ≤ (handleSet o st chash command args).1.capture_timelim := by
  unfold handleSet
  split
  · exact h
  · split
    · exact h
    · exact setSwitch_timelim_ge _ _ _ _ _ h

/-- Processing any request keeps the ceiling at or above 1000 ms. -/
theorem processPacket_timelim_ge (o : VendorOracle) (tnow : Int)
    (st : ServerState) (p : NetPacket) (h : 1000 ≤ st.capture_timelim) :
    1000 ≤ (processPacket o tnow st p).1.capture_timelim := by
  unfold processPacket
  dsimp only
  repeat' split
  all_goals first
    | exact h
    | exact handleSet_timelim_ge _ _ _ _ _ h

/-- No verb other than set ever writes the ceiling. -/
theorem processPacket_timelim_eq_of_not_set (o : VendorOracle) (tnow : Int)
    (st : ServerState) (p : NetPacket) (h : p.cmd_type ≠ "set") :
    (processPacket o tnow st p).1.capture_timelim = st.capture_timelim := by
  unfold processPacket
  dsimp only
  repeat' split
  all_goals rfl

/-- One loop iteration keeps the ceiling at or above 1000 ms. -/
theorem loopIter_timelim_ge (o : VendorOracle) (tnow : Int) (w : Wake)
    (st : ServerState) (h : 1000 ≤ st.capture_timelim) :
    1000 ≤ (loopIter o tnow w st).1.capture_timelim := by
  cases w with
  | timeout => exact h
  | message p => exact processPacket_timelim_ge o tnow (ceilingCheck o tnow st) p h

/-- Running the loop keeps the ceiling at or above 1000 ms. -/
theorem loopRun_timelim_ge (o : VendorOracle) :
    ∀ (events : List (Int × Wake)) (st : ServerState),
      1000 ≤ st.capture_timelim → 1000 ≤ (loopRun o events st).capture_timelim := by
  intro events
  induction events with
  | nil => intro st h; exact h
  | cons ev rest ih =>
    intro st h
    obtain ⟨tnow, w⟩ := ev
    unfold loopRun
    split
    · exact h
    · exact ih _ (loopIter_timelim_ge o tnow w st h)

/-- C2: the ceiling starts at 5000 ms; the set capture_maxlen case clamps
any requested value below 1000 to 1000 before storing and returns the
clamped value; no other operation writes the ceiling; hence every state
reachable by the request loop keeps the ceiling at or above 1000 ms; and a
concrete set of 500 ms stores 1000 and returns "1000". -/
theorem capture_timelim_floor_invariant :
    (∀ (camids : List Nat) (cams : List (Nat × ImageCam)),
      (initState camids cams).capture_timelim = 5000) ∧
    (∀ (o : VendorOracle) (tl : Int) (cam : ImageCam) (a : String)
       (rest : List String),
      (setSwitch o tl cam CommandNames.capture_maxlen (a :: rest)).timelim =
        (if atol a < 1000 then 1000 else atol a) ∧
      1000 ≤ (setSwitch o tl cam CommandNames.capture_maxlen (a :: rest)).timelim ∧
      (setSwitch o tl cam CommandNames.capture_maxlen (a :: rest)).reply =
        [toString (if atol a < 1000 then (1000 : Int) else atol a)]) ∧
    (∀ (o : VendorOracle) (tl : Int) (cam : ImageCam) (command : Int)
       (args : List String),
      command ≠ CommandNames.capture_maxlen →
      (setSwitch o tl cam command args).timelim = tl) ∧
    (∀ (o : VendorOracle) (tnow : Int) (st : ServerState) (p : NetPacket),
      p.cmd_type ≠ "set" →
      (processPacket o tnow st p).1.capture_timelim = st.capture_timelim) ∧
    (∀ (o : VendorOracle) (tnow : Int) (st : ServerState),
      (ceilingCheck o tnow st).capture_timelim = st.capture_timelim) ∧
    (∀ (o : VendorOracle) (events : List (Int × Wake)) (camids : List Nat)
       (cams : List (Nat × ImageCam)),
      1000 ≤ (loopRun o events (initState camids cams)).capture_timelim) ∧
    ((handleSet okOracle st0 1 CommandNames.capture_maxlen ["500"]).1.capture_timelim
        = 1000 ∧
     (handleSet okOracle st0 1 CommandNames.capture_maxlen ["500"]).2.2 = ["1000"]) := by
  refine ⟨fun _ _ => rfl, ?_, setSwitch_timelim_of_ne,
    processPacket_timelim_eq_of_not_set, fun _ _ _ => rfl, ?_,
    by constructor <;> rfl⟩
  · intro o tl cam a rest
    have hsw : setSwitch o tl cam CommandNames.capture_maxlen (a :: rest) =
        { cam := cam,
          timelim := if atol a < 1000 then 1000 else atol a,
          err := VmbError.Success,
          reply := [toString (if atol a < 1000 then (1000 : Int) else atol a)] } := by
      unfold setSwitch
      rw [if_pos rfl]
      rfl
    rw [hsw]
    refine ⟨rfl, ?_, rfl⟩
    simp only []
    split <;> omega
  · intro o events camids cams
    exact loopRun_timelim_ge o events (initState camids cams)
      (by show (1000 : Int) ≤ 5000; norm_num)

/-- Witness for C2 (the non-maxlen clause discharged at command code
image_format). -/
theorem capture_timelim_floor_invariant_witness :
    CommandNames.image_format ≠ CommandNames.capture_maxlen ∧
    (setSwitch okOracle 5000 sampleCam CommandNames.image_format ["x"]).timelim =
      5000 :=
  ⟨by decide, capture_timelim_floor_invariant.2.2.1 okOracle 5000 sampleCam
    CommandNames.image_format ["x"] (by decide)⟩

end AlliedServer
